import Mathlib

/-!
Verification of the course-catalog application (`src/app.py`).

The embedding models the instrumented catalog store: the file-backed record
store (`load_courses`, `save_courses`), the lookup route (`course_details`),
the listing route (`course_catalog`), and the creation route (`add_course`,
POST branch), together with the process-wide `route_counts` and
`error_counts` mappings.  Spans, structured logging, flash messages and HTML
rendering are pure observability/UI and carry no data the verified
properties depend on; they are not modelled.  The catalog file is modelled
as `Option (List Course)`: `none` when the file does not exist, `some cs`
when it holds the JSON array `cs`.
-/

namespace CourseApp

/-- A course record, as built in `add_course` (src/app.py:170-180) and as
persisted in the JSON catalog file.  Each field holds the result of
`request.form.get(key)`: `none` when the key was absent from the input
mapping (Python `None`, serialised as JSON `null`), `some s` when the key
mapped to the raw string `s` (possibly empty). -/
structure Course where
  name : Option String
  code : Option String
  instructor : Option String
  semester : Option String
  schedule : Option String
  classroom : Option String
  prerequisites : Option String
  grading : Option String
  description : Option String
  deriving Repr, DecidableEq

/-- The `route_counts` mapping (src/app.py:66-71): one counter per route,
initialised to zero at process start. -/
structure RouteCounts where
  index : Nat
  catalog : Nat
  add_course : Nat
  course_details : Nat
  deriving Repr, DecidableEq

/-- The `error_counts` mapping (src/app.py:74-77). -/
structure ErrorCounts where
  missing_fields : Nat
  duplicate_code : Nat
  deriving Repr, DecidableEq

/-- Process state: the persisted catalog file (`none` = file absent) and the
two in-memory counter mappings. -/
structure St where
  file : Option (List Course)
  route_counts : RouteCounts
  error_counts : ErrorCounts
  deriving Repr, DecidableEq

/-- `load_courses` (src/app.py:34-39): returns `[]` when the file does not
exist, otherwise the parsed array. -/
def load_courses (file : Option (List Course)) : List Course :=
  match file with
  | none => []
  | some courses => courses

/-- `save_courses` (src/app.py:42-47): loads the existing courses, appends
the new record, and rewrites the whole file. -/
def save_courses (file : Option (List Course)) (data : Course) : Option (List Course) :=
  let courses := load_courses file
  some (courses ++ [data])

/-- Python truthiness test `not value` on an optional string: `None` and the
empty string are falsy, every other string is truthy. -/
def falsy : Option String → Bool
  | none => true
  | some s => s == ""

/-- `course_data.items()` in dict insertion order (src/app.py:170-180). -/
def courseItems (c : Course) : List (String × Option String) :=
  [("name", c.name), ("code", c.code), ("instructor", c.instructor),
   ("semester", c.semester), ("schedule", c.schedule), ("classroom", c.classroom),
   ("prerequisites", c.prerequisites), ("grading", c.grading),
   ("description", c.description)]

/-- The required-field set `{"name", "code", "instructor", "semester"}`
used by the validation check (src/app.py:187). -/
def requiredKeys : List String := ["name", "code", "instructor", "semester"]

/-- The validation comprehension (src/app.py:187):
`[key for key, value in course_data.items() if not value and key in {...}]`. -/
def missing_fields (c : Course) : List String :=
  ((courseItems c).filter (fun kv => falsy kv.2 && requiredKeys.contains kv.1)).map Prod.fst

/-- `next((course for course in courses if course['code'] == code), None)`
(src/app.py:137): the first stored record whose `code` equals the argument. -/
def find_course (courses : List Course) (code : String) : Option Course :=
  courses.find? (fun c => c.code == some code)

/-- Result of the `course_details` route, seen from the caller. -/
inductive DetailsResult where
  | found (c : Course)
  | notFound
  deriving Repr, DecidableEq

/-- Result of the `add_course` POST handler, seen from the caller. -/
inductive AddResult where
  | created (c : Course)
  | validationFailed (missing : List String)
  | duplicateCode (code : Option String)
  deriving Repr, DecidableEq

/-- `course_catalog` (src/app.py:97-121): increments `route_counts['catalog']`,
loads all courses and returns them. -/
def course_catalog (st : St) : List Course × St :=
  let st1 := { st with
    route_counts := { st.route_counts with catalog := st.route_counts.catalog + 1 } }
  let courses := load_courses st1.file
  (courses, st1)

/-- `course_details` (src/app.py:123-156): increments
`route_counts['course_details']`, loads the catalog and looks up the first
record with the given code; on a miss it increments
`error_counts['missing_fields']` and redirects (not-found), on a hit it
returns the record.  (A record found by the lookup always carries the
`code` key, so Python's `if not course:` test is exactly the found/not-found
distinction.) -/
def course_details (code : String) (st : St) : DetailsResult × St :=
  let st1 := { st with
    route_counts :=
      { st.route_counts with course_details := st.route_counts.course_details + 1 } }
  let courses := load_courses st1.file
  match find_course courses code with
  | none =>
      (DetailsResult.notFound,
       { st1 with
         error_counts :=
           { st1.error_counts with
             missing_fields := st1.error_counts.missing_fields + 1 } })
  | some course => (DetailsResult.found course, st1)

/-- `add_course`, POST branch (src/app.py:158-220): increments
`route_counts['add_course']`, builds the candidate record from the form,
validates required fields; on validation failure increments
`error_counts['missing_fields']` and redirects; otherwise checks for a
duplicate code against the loaded catalog, on a duplicate increments
`error_counts['duplicate_code']` and redirects; otherwise saves the record. -/
def add_course (form : Course) (st : St) : AddResult × St :=
  let st1 := { st with
    route_counts :=
      { st.route_counts with add_course := st.route_counts.add_course + 1 } }
  let course_data := form
  let missing := missing_fields course_data
  if missing ≠ [] then
    (AddResult.validationFailed missing,
     { st1 with
       error_counts :=
         { st1.error_counts with
           missing_fields := st1.error_counts.missing_fields + 1 } })
  else
    let courses := load_courses st1.file
    match courses.find? (fun c => c.code == course_data.code) with
    | some _ =>
        (AddResult.duplicateCode course_data.code,
         { st1 with
           error_counts :=
             { st1.error_counts with
               duplicate_code := st1.error_counts.duplicate_code + 1 } })
    | none =>
        (AddResult.created course_data,
         { st1 with file := save_courses st1.file course_data })

/-- The codes of the stored records, in storage order. -/
def codes (courses : List Course) : List (Option String) := courses.map Course.code

/-- A fresh process state over an absent catalog file: counters zeroed as at
process start (src/app.py:66-77). -/
def initSt : St :=
  { file := none
    route_counts := { index := 0, catalog := 0, add_course := 0, course_details := 0 }
    error_counts := { missing_fields := 0, duplicate_code := 0 } }

/-- The example input of the spec scenario: all four required fields present
and non-empty, all optional form fields absent. -/
def algoCourse : Course :=
  { name := some "Algorithms"
    code := some "CS301"
    instructor := some "A. Turing"
    semester := some "Fall"
    schedule := none
    classroom := none
    prerequisites := none
    grading := none
    description := none }

/-- The spec scenario's invalid input: empty `name`, fresh code `CS302`. -/
def blankNameCourse : Course :=
  { name := some ""
    code := some "CS302"
    instructor := some "B"
    semester := some "Spring"
    schedule := none
    classroom := none
    prerequisites := none
    grading := none
    description := none }

/-- A state whose catalog file already holds exactly `algoCourse`. -/
def stWithAlgo : St := { initSt with file := some [algoCourse] }

/-- The validation comprehension, spelt out per required key in the order in
which the keys are checked (dict insertion order: name, code, instructor,
semester). -/
theorem missing_fields_eq (c : Course) :
    missing_fields c =
      (if falsy c.name then ["name"] else []) ++
      (if falsy c.code then ["code"] else []) ++
      (if falsy c.instructor then ["instructor"] else []) ++
      (if falsy c.semester then ["semester"] else []) := by
  simp only [missing_fields, courseItems, requiredKeys, List.filter_cons, List.filter_nil]
  norm_num
  cases falsy c.name <;> cases falsy c.code <;>
    cases falsy c.instructor <;> cases falsy c.semester <;> simp

/-- `find?` over an append scans the left part first. -/
theorem find_append (p : Course → Bool) (l1 l2 : List Course) :
    (l1 ++ l2).find? p = ((l1.find? p).orElse (fun _ => l2.find? p)) := by
  induction l1 with
  | nil => simp
  | cons a l ih => by_cases h : p a <;> simp [List.find?, h, ih]

/-- Claim C1: for every input whose required fields are all non-empty and
whose code occurs in no stored record, `add_course` returns `Created` with
the input record, and a subsequent `course_details` on the input's code
returns that same record. -/
theorem add_course_roundtrip (form : Course) (st : St) (c : String)
    (hcode : form.code = some c)
    (hvalid : missing_fields form = [])
    (hfresh : ∀ r ∈ load_courses st.file, r.code ≠ form.code) :
    (add_course form st).1 = AddResult.created form ∧
    (course_details c (add_course form st).2).1 = DetailsResult.found form := by
  have hne : ¬ missing_fields form ≠ [] := by simp [hvalid]
  have hnone : (load_courses st.file).find? (fun r => r.code == form.code) = none := by
    rw [List.find?_eq_none]
    intro r hr
    simp [hfresh r hr]
  have hpair : add_course form st =
      (AddResult.created form,
       { st with
         file := save_courses st.file form,
         route_counts :=
           { st.route_counts with add_course := st.route_counts.add_course + 1 } }) := by
    simp only [add_course]
    rw [if_neg hne]
    simp only [hnone]
  refine ⟨by rw [hpair], ?_⟩
  rw [hpair]
  simp only [course_details, find_course, save_courses, load_courses]
  rw [find_append]
  have h1 : (load_courses st.file).find? (fun r => r.code == some c) = none := by
    rw [List.find?_eq_none]
    intro r hr
    have := hfresh r hr
    rw [hcode] at this
    simp [this]
  have h2 : ([form].find? (fun r => r.code == some c)) = some form := by
    simp [List.find?, hcode]
  simp only [load_courses] at h1
  rw [h1, h2]
  rfl

/-- Claim C1 witness: the spec scenario on the empty store. -/
theorem add_course_roundtrip_witness :
    (add_course algoCourse initSt).1 = AddResult.created algoCourse ∧
    (course_details "CS301" (add_course algoCourse initSt).2).1 =
      DetailsResult.found algoCourse :=
  add_course_roundtrip algoCourse initSt "CS301" rfl (by decide)
    (by simp [initSt, load_courses])

/-- Claim C2: for every input with at least one required field absent or
empty, `add_course` returns `ValidationFailed` listing exactly the missing
required fields in the order they were checked (name, code, instructor,
semester), bumps `error_counts['missing_fields']`, and leaves the catalog
file untouched (the result state keeps `st.file`). -/
theorem add_course_validation_failed (form : Course) (st : St)
    (h : falsy form.name ∨ falsy form.code ∨ falsy form.instructor ∨ falsy form.semester) :
    add_course form st =
      (AddResult.validationFailed
        ((if falsy form.name then ["name"] else []) ++
         (if falsy form.code then ["code"] else []) ++
         (if falsy form.instructor then ["instructor"] else []) ++
         (if falsy form.semester then ["semester"] else [])),
       { st with
         route_counts :=
           { st.route_counts with add_course := st.route_counts.add_course + 1 },
         error_counts :=
           { st.error_counts with
             missing_fields := st.error_counts.missing_fields + 1 } }) := by
  have hne : missing_fields form ≠ [] := by
    rw [missing_fields_eq]
    rcases h with h | h | h | h <;> simp [h]
  simp only [add_course]
  rw [if_pos hne, missing_fields_eq]

/-- Claim C2 witness: the spec scenario's empty-name input. -/
theorem add_course_validation_failed_witness :
    add_course blankNameCourse initSt =
      (AddResult.validationFailed ["name"],
       { initSt with
         route_counts := { initSt.route_counts with add_course := 1 },
         error_counts := { initSt.error_counts with missing_fields := 1 } }) := by
  have h := add_course_validation_failed blankNameCourse initSt (Or.inl (by decide))
  simpa using h

/-- Claim C3: for every valid input whose code string-equals the code of a
stored record, `add_course` returns `DuplicateCode` with that code, bumps
`error_counts['duplicate_code']`, and leaves the catalog file untouched. -/
theorem add_course_duplicate (form : Course) (st : St)
    (hvalid : missing_fields form = [])
    (hdup : ∃ r ∈ load_courses st.file, r.code = form.code) :
    add_course form st =
      (AddResult.duplicateCode form.code,
       { st with
         route_counts :=
           { st.route_counts with add_course := st.route_counts.add_course + 1 },
         error_counts :=
           { st.error_counts with
             duplicate_code := st.error_counts.duplicate_code + 1 } }) := by
  have hne : ¬ missing_fields form ≠ [] := by simp [hvalid]
  simp only [add_course]
  rw [if_neg hne]
  obtain ⟨r, hr, hcode⟩ := hdup
  cases hf : (load_courses st.file).find? (fun c => c.code == form.code) with
  | none =>
      rw [List.find?_eq_none] at hf
      exact absurd (by simp [hcode]) (hf r hr)
  | some r2 => rfl

/-- Claim C3 witness: re-adding `algoCourse` over a store that holds it. -/
theorem add_course_duplicate_witness :
    add_course algoCourse stWithAlgo =
      (AddResult.duplicateCode (some "CS301"),
       { stWithAlgo with
         route_counts := { stWithAlgo.route_counts with add_course := 1 },
         error_counts := { stWithAlgo.error_counts with duplicate_code := 1 } }) := by
  have h := add_course_duplicate algoCourse stWithAlgo (by decide)
    ⟨algoCourse, by simp [stWithAlgo, initSt, load_courses], rfl⟩
  simpa [algoCourse] using h

/-- Claim C4: if the stored codes are pairwise distinct before an
`add_course` call they stay pairwise distinct after it, and whenever the
call changes the file it appends exactly one record whose code occurs in no
previously stored record. -/
theorem add_course_unique_codes (form : Course) (st : St)
    (h : (codes (load_courses st.file)).Nodup) :
    (codes (load_courses ((add_course form st).2).file)).Nodup ∧
    (((add_course form st).2).file ≠ st.file →
      form.code ∉ codes (load_courses st.file) ∧
      load_courses ((add_course form st).2).file = load_courses st.file ++ [form]) := by
  by_cases hv : missing_fields form ≠ []
  · simp only [add_course]
    rw [if_pos hv]
    exact ⟨h, fun hc => absurd rfl hc⟩
  · rw [not_not] at hv
    simp only [add_course]
    rw [if_neg (by simp [hv])]
    cases hf : (load_courses st.file).find? (fun c => c.code == form.code) with
    | some r => exact ⟨h, fun hc => absurd rfl hc⟩
    | none =>
        rw [List.find?_eq_none] at hf
        have hnotin : form.code ∉ codes (load_courses st.file) := by
          intro hmem
          obtain ⟨r, hr, hrc⟩ := List.mem_map.mp hmem
          exact hf r hr (by simp [hrc])
        constructor
        · simp only [save_courses, load_courses, codes, List.map_append]
          rw [List.nodup_append]
          refine ⟨?_, by simp, ?_⟩
          · simpa [codes, load_courses] using h
          · intro x hx hx2
            simp only [List.map_cons, List.map_nil, List.mem_cons, List.not_mem_nil,
              or_false] at hx2
            subst hx2
            exact hnotin (by simpa [codes, load_courses] using hx)
        · intro _
          exact ⟨hnotin, by simp [save_courses, load_courses]⟩

/-- Claim C4 witness: adding `algoCourse` to the empty store. -/
theorem add_course_unique_codes_witness :
    (codes (load_courses ((add_course algoCourse initSt).2).file)).Nodup ∧
    (((add_course algoCourse initSt).2).file ≠ initSt.file →
      algoCourse.code ∉ codes (load_courses initSt.file) ∧
      load_courses ((add_course algoCourse initSt).2).file =
        load_courses initSt.file ++ [algoCourse]) :=
  add_course_unique_codes algoCourse initSt (by simp [initSt, load_courses, codes])

/-- Claim C5: `save_courses` rewrites the file so that the persisted
sequence equals the previous sequence with the new record appended at the
end — every earlier record and their relative order are preserved. -/
theorem save_courses_frame (file : Option (List Course)) (data : Course) :
    load_courses (save_courses file data) = load_courses file ++ [data] := rfl

/-- Claim C5 witness: saving over the one-record store. -/
theorem save_courses_frame_witness :
    load_courses (save_courses (some [algoCourse]) blankNameCourse) =
      load_courses (some [algoCourse]) ++ [blankNameCourse] :=
  save_courses_frame (some [algoCourse]) blankNameCourse

/-- Claim C6: `course_details` never changes the catalog file; when the
stored sequence splits as `pre ++ c :: post` with no record of `pre`
matching the code and `c` matching, it returns `c` (the first match) and
leaves the error counters alone; when no record matches it returns
not-found and increments `error_counts['missing_fields']` by exactly 1. -/
theorem course_details_correct (code : String) (st : St) :
    ((course_details code st).2).file = st.file ∧
    (∀ pre c post,
      load_courses st.file = pre ++ c :: post →
      (∀ r ∈ pre, r.code ≠ some code) →
      c.code = some code →
      course_details code st =
        (DetailsResult.found c,
         { st with
           route_counts :=
             { st.route_counts with
               course_details := st.route_counts.course_details + 1 } })) ∧
    ((∀ r ∈ load_courses st.file, r.code ≠ some code) →
      course_details code st =
        (DetailsResult.notFound,
         { st with
           route_counts :=
             { st.route_counts with
               course_details := st.route_counts.course_details + 1 },
           error_counts :=
             { st.error_counts with
               missing_fields := st.error_counts.missing_fields + 1 } })) := by
  refine ⟨?_, ?_, ?_⟩
  · simp only [course_details]
    cases hf : find_course (load_courses st.file) code <;> simp [hf]
  · intro pre c post hsplit hpre hc
    have hfind : find_course (load_courses st.file) code = some c := by
      rw [find_course, hsplit, find_append]
      have h1 : pre.find? (fun r => r.code == some code) = none := by
        rw [List.find?_eq_none]
        intro r hr
        simp [hpre r hr]
      rw [h1]
      simp [List.find?, hc]
    simp only [course_details]
    rw [hfind]
  · intro hnone
    have hfind : find_course (load_courses st.file) code = none := by
      rw [find_course, List.find?_eq_none]
      intro r hr
      simp [hnone r hr]
    simp only [course_details]
    rw [hfind]

/-- Claim C6 witness: looking up `CS301` in the one-record store. -/
theorem course_details_correct_witness :
    course_details "CS301" stWithAlgo =
      (DetailsResult.found algoCourse,
       { stWithAlgo with
         route_counts := { stWithAlgo.route_counts with course_details := 1 } }) := by
  have h := (course_details_correct "CS301" stWithAlgo).2.1 [] algoCourse []
    (by simp [stWithAlgo, initSt, load_courses]) (by simp) rfl
  simpa using h

/-- Claim C7: when the catalog file does not exist `load_courses` returns
the empty sequence, and `course_catalog` over an absent or empty store
returns the empty sequence. -/
theorem load_absent_empty (st : St) (h : st.file = none ∨ st.file = some []) :
    load_courses none = [] ∧ (course_catalog st).1 = [] := by
  refine ⟨rfl, ?_⟩
  rcases h with h | h <;> simp [course_catalog, load_courses, h]

/-- Claim C7 witness: the fresh state with no catalog file. -/
theorem load_absent_empty_witness :
    load_courses none = [] ∧ (course_catalog initSt).1 = [] :=
  load_absent_empty initSt (Or.inl rfl)

/-- Claim C8 counterexample: `algoCourse` omits the optional `schedule`
field; `add_course` accepts it and stores the candidate with
`schedule = none` (Python `None`, serialised as JSON `null`), which is not
the empty string — refuting the claim that absent optional fields are
stored as the empty string. -/
theorem add_course_optional_empty_counterexample :
    (add_course algoCourse initSt).1 = AddResult.created algoCourse ∧
    load_courses ((add_course algoCourse initSt).2).file = [algoCourse] ∧
    algoCourse.schedule = none ∧ algoCourse.schedule ≠ some "" := by
  refine ⟨?_, ?_, rfl, by decide⟩ <;> decide

/-- Claim C8 (amended): for every accepted input in which an optional field
(schedule, classroom, prerequisites, grading, description) is absent, the
candidate record built and stored keeps `none` (Python `None` / JSON
`null`) for that field — a sentinel distinct from the empty string, never
the empty string. -/
theorem add_course_optional_absent_stored_none (form : Course) (st : St)
    (g : Course → Option String)
    (_hopt : g = Course.schedule ∨ g = Course.classroom ∨ g = Course.prerequisites ∨
      g = Course.grading ∨ g = Course.description)
    (habsent : g form = none)
    (hvalid : missing_fields form = [])
    (hfresh : ∀ r ∈ load_courses st.file, r.code ≠ form.code) :
    (add_course form st).1 = AddResult.created form ∧
    load_courses ((add_course form st).2).file = load_courses st.file ++ [form] ∧
    g form ≠ some "" := by
  have hne : ¬ missing_fields form ≠ [] := by simp [hvalid]
  have hnone : (load_courses st.file).find? (fun r => r.code == form.code) = none := by
    rw [List.find?_eq_none]
    intro r hr
    simp [hfresh r hr]
  have hpair : add_course form st =
      (AddResult.created form,
       { st with
         file := save_courses st.file form,
         route_counts :=
           { st.route_counts with add_course := st.route_counts.add_course + 1 } }) := by
    simp only [add_course]
    rw [if_neg hne]
    simp only [hnone]
  refine ⟨by rw [hpair], ?_, by simp [habsent]⟩
  rw [hpair]
  rfl

/-- Claim C8 (amended) witness: the absent `schedule` of `algoCourse`. -/
theorem add_course_optional_absent_stored_none_witness :
    (add_course algoCourse initSt).1 = AddResult.created algoCourse ∧
    load_courses ((add_course algoCourse initSt).2).file =
      load_courses initSt.file ++ [algoCourse] ∧
    Course.schedule algoCourse ≠ some "" :=
  add_course_optional_absent_stored_none algoCourse initSt Course.schedule
    (Or.inl rfl) rfl (by decide) (by simp [initSt, load_courses])

/-- Claim C9: each of the three operations bumps exactly its own route
counter by 1 (the other route counters are returned unchanged), and no
operation decreases any route or error counter. -/
theorem counters_monotonic (st : St) (code : String) (form : Course) :
    (((course_catalog st).2).route_counts =
       { st.route_counts with catalog := st.route_counts.catalog + 1 } ∧
     ((course_catalog st).2).error_counts = st.error_counts) ∧
    (((course_details code st).2).route_counts =
       { st.route_counts with
         course_details := st.route_counts.course_details + 1 } ∧
     st.error_counts.missing_fields ≤
       ((course_details code st).2).error_counts.missing_fields ∧
     ((course_details code st).2).error_counts.duplicate_code =
       st.error_counts.duplicate_code) ∧
    (((add_course form st).2).route_counts =
       { st.route_counts with add_course := st.route_counts.add_course + 1 } ∧
     st.error_counts.missing_fields ≤
       ((add_course form st).2).error_counts.missing_fields ∧
     st.error_counts.duplicate_code ≤
       ((add_course form st).2).error_counts.duplicate_code) := by
  refine ⟨⟨rfl, rfl⟩, ?_, ?_⟩
  · simp only [course_details]
    cases hf : find_course (load_courses st.file) code <;> simp [hf]
  · simp only [add_course]
    by_cases hv : missing_fields form ≠ []
    · rw [if_pos hv]
      refine ⟨rfl, by simp, by simp⟩
    · rw [if_neg hv]
      cases hf : (load_courses st.file).find? (fun c => c.code == form.code) <;>
        simp [hf]

/-- Claim C9 witness: the three operations over the fresh state. -/
theorem counters_monotonic_witness :
    (((course_catalog initSt).2).route_counts =
       { initSt.route_counts with catalog := initSt.route_counts.catalog + 1 } ∧
     ((course_catalog initSt).2).error_counts = initSt.error_counts) ∧
    (((course_details "CS301" initSt).2).route_counts =
       { initSt.route_counts with
         course_details := initSt.route_counts.course_details + 1 } ∧
     initSt.error_counts.missing_fields ≤
       ((course_details "CS301" initSt).2).error_counts.missing_fields ∧
     ((course_details "CS301" initSt).2).error_counts.duplicate_code =
       initSt.error_counts.duplicate_code) ∧
    (((add_course algoCourse initSt).2).route_counts =
       { initSt.route_counts with
         add_course := initSt.route_counts.add_course + 1 } ∧
     initSt.error_counts.missing_fields ≤
       ((add_course algoCourse initSt).2).error_counts.missing_fields ∧
     initSt.error_counts.duplicate_code ≤
       ((add_course algoCourse initSt).2).error_counts.duplicate_code) :=
  counters_monotonic initSt "CS301" algoCourse

/-- Claim C10: validation precedes duplicate detection — for every input
with a missing required field, `add_course` returns `ValidationFailed`
(even when the input's code duplicates a stored record), leaves
`error_counts['duplicate_code']` and the catalog file untouched, and its
outcome does not depend on the catalog file's contents at all (the
duplicate check never reads the file). -/
theorem validation_precedes_duplicate_check (form : Course) (st : St)
    (h : missing_fields form ≠ []) :
    (add_course form st).1 = AddResult.validationFailed (missing_fields form) ∧
    ((add_course form st).2).error_counts.duplicate_code =
      st.error_counts.duplicate_code ∧
    ((add_course form st).2).file = st.file ∧
    (∀ f2 : Option (List Course),
      (add_course form { st with file := f2 }).1 = (add_course form st).1) := by
  have hred : ∀ st2 : St, add_course form st2 =
      (AddResult.validationFailed (missing_fields form),
       { st2 with
         route_counts :=
           { st2.route_counts with add_course := st2.route_counts.add_course + 1 },
         error_counts :=
           { st2.error_counts with
             missing_fields := st2.error_counts.missing_fields + 1 } }) := by
    intro st2
    simp only [add_course]
    rw [if_pos h]
  refine ⟨by rw [hred st], by rw [hred st], by rw [hred st], ?_⟩
  intro f2
  rw [hred st, hred { st with file := f2 }]

/-- Claim C10 witness: the empty-name input whose code `CS302` already sits
in the store still fails validation, not duplicate detection. -/
theorem validation_precedes_duplicate_check_witness :
    (add_course blankNameCourse { initSt with file := some [blankNameCourse] }).1 =
      AddResult.validationFailed ["name"] ∧
    ((add_course blankNameCourse { initSt with file := some [blankNameCourse] }).2).file =
      some [blankNameCourse] := by
  have h := validation_precedes_duplicate_check blankNameCourse
    { initSt with file := some [blankNameCourse] } (by decide)
  refine ⟨?_, ?_⟩
  · rw [h.1]; decide
  · exact h.2.2.1

end CourseApp
